import Mathlib

/-!
Verification development for the notif-bot repository (src/bot.js).

The file shallowly embeds the stateful core of the bot — the dedup store
(`processedEvents`), the milestone tracker (`milestoneCache` and
`checkAndNotifyMilestone`), the change-event classifiers for the
`Users`, `Auto_Trade` and `Copy_Wallets` UPDATE handlers, the SQS
message loop body, and the HTML-escaping helper — and proves the
behavioural properties claimed for them.

Modelling conventions:
* JavaScript runtime values are `Value`; JavaScript numbers (which may
  be `NaN`) are `JSNum` over `ℚ`.  All numeric comparisons with `NaN`
  are `false`, as in JS.
* `Map` objects keyed by strings holding numbers (`processedEvents`,
  `milestoneCache`) are association lists `Store`; `Map.set` replaces
  an existing binding in place or appends a fresh one, as in JS.
* Row images (`payload.new` / `payload.old`) are association lists of
  column name to `Value`; `Object.keys(r).length` is the list length
  (row images never repeat a column name).
* Wall-clock instants (`Date.now()`) are rationals, in milliseconds.
-/

set_option linter.unusedVariables false
set_option maxRecDepth 8000

namespace NotifBot

/-- JavaScript runtime values, restricted to the shapes that reach the
classifier: `null`, `undefined`, booleans, numbers and strings. -/
inductive Value where
  | vNull : Value
  | vUndef : Value
  | vBool : Bool → Value
  | vNum : ℚ → Value
  | vStr : String → Value
  deriving DecidableEq, Repr

/-- JavaScript numbers: either `NaN` or a (rational) numeric value. -/
inductive JSNum where
  | nan : JSNum
  | num : ℚ → JSNum
  deriving DecidableEq, Repr

/-- JS subtraction: `NaN` is absorbing. -/
def JSNum.sub : JSNum → JSNum → JSNum
  | JSNum.num a, JSNum.num b => JSNum.num (a - b)
  | _, _ => JSNum.nan

/-- JS `<`: any comparison with `NaN` is `false`. -/
def JSNum.ltb : JSNum → JSNum → Bool
  | JSNum.num a, JSNum.num b => decide (a < b)
  | _, _ => false

/-- JS `<=`: any comparison with `NaN` is `false`. -/
def JSNum.leb : JSNum → JSNum → Bool
  | JSNum.num a, JSNum.num b => decide (a ≤ b)
  | _, _ => false

/-- JS `>`. -/
def JSNum.gtb (a b : JSNum) : Bool := JSNum.ltb b a

/-- JS `>=`. -/
def JSNum.geb (a b : JSNum) : Bool := JSNum.leb b a

/-- JS `Math.abs`. -/
def JSNum.absn : JSNum → JSNum
  | JSNum.nan => JSNum.nan
  | JSNum.num a => JSNum.num |a|

/-- JS truthiness: `null`, `undefined`, `false`, `0` and `""` are falsy. -/
def Value.truthy : Value → Bool
  | Value.vNull => false
  | Value.vUndef => false
  | Value.vBool b => b
  | Value.vNum q => decide (q ≠ 0)
  | Value.vStr s => decide (s ≠ "")

/-- JS `x || y`. -/
def jsOr (x y : Value) : Value := if x.truthy then x else y

/-- Digit-string to natural number; `none` on empty input or a non-digit. -/
def digitsToNat? : List Char → Option Nat
  | [] => none
  | cs => cs.foldl
      (fun acc c =>
        match acc with
        | none => none
        | some n => if c.isDigit then some (n * 10 + (c.toNat - 48)) else none)
      (some 0)

/-- Decimal-literal parser: optional minus sign, digits, optional dot and
fraction digits.  Models the subset of JS numeric-string syntax that the
claims exercise; anything else is `none` (→ `NaN`), as `Number` gives for
non-numeric strings. -/
def parseDec (s : String) : Option ℚ :=
  let cs := s.data
  let signed : Bool × List Char :=
    match cs with
    | '-' :: rest => (true, rest)
    | _ => (false, cs)
  let intPart := signed.2.takeWhile (fun c => c ≠ '.')
  let rest := signed.2.dropWhile (fun c => c ≠ '.')
  let mag : Option ℚ :=
    match rest with
    | [] =>
        match digitsToNat? intPart with
        | some n => some (n : ℚ)
        | none => none
    | _ :: frac =>
        match digitsToNat? intPart, digitsToNat? frac with
        | some n, some f => some ((n : ℚ) + (f : ℚ) / ((10 : ℚ) ^ frac.length))
        | _, _ => none
  match mag with
  | some q => some (if signed.1 then -q else q)
  | none => none

/-- JS `Number(v)` conversion. -/
def toNumber : Value → JSNum
  | Value.vNull => JSNum.num 0
  | Value.vUndef => JSNum.nan
  | Value.vBool b => JSNum.num (if b then 1 else 0)
  | Value.vNum q => JSNum.num q
  | Value.vStr s =>
      if s = "" then JSNum.num 0
      else
        match parseDec s with
        | some q => JSNum.num q
        | none => JSNum.nan

/-- Rendering of a JS number as a string.  JS prints decimal expansions;
this model prints the integer when the rational is integral (the only
case any claim evaluates) and an exact fraction otherwise. -/
def qToString (q : ℚ) : String :=
  if q.den = 1 then toString q.num else toString q.num ++ "/" ++ toString q.den

/-- JS `String(v)` conversion. -/
def jsToString : Value → String
  | Value.vNull => "null"
  | Value.vUndef => "undefined"
  | Value.vBool b => if b then "true" else "false"
  | Value.vNum q => qToString q
  | Value.vStr s => s

/-- A row image: association list from column name to value. -/
abbrev Row := List (String × Value)

/-- Property access `r[field]`: `undefined` when the column is absent. -/
def Row.get (r : Row) (k : String) : Value :=
  match r.find? (fun p => p.1 == k) with
  | some p => p.2
  | none => Value.vUndef

/-- JS membership test `key in obj`. -/
def Row.hasKey (r : Row) (k : String) : Bool :=
  (r.find? (fun p => p.1 == k)).isSome

/-- JS `Object.keys(r).length` (row images never repeat a column name). -/
def Row.keyCount (r : Row) : Nat := List.length r

/-- JS `Number(r[field] || 0)` — the numeric-field coercion used throughout
the `Users` UPDATE handler. -/
def numField (r : Row) (k : String) : JSNum :=
  toNumber (jsOr (Row.get r k) (Value.vNum 0))

/-- A change-feed payload: `new` row image and optional `old` image. -/
structure Payload where
  new : Row
  old : Option Row
  deriving DecidableEq

/-! ## Time-stamped stores

`processedEvents` and `milestoneCache` are JS `Map`s from strings to
numbers.  `Map.set` overwrites an existing binding in place, otherwise
appends; `Map.has`/`Map.get` look the key up. -/

/-- A JS `Map` from strings to numbers, as an association list. -/
abbrev Store := List (String × ℚ)

/-- JS `Map.has`. -/
def storeHas : Store → String → Bool
  | [], _ => false
  | p :: rest, k => if p.1 == k then true else storeHas rest k

/-- JS `Map.get`, as an `Option`. -/
def storeFind : Store → String → Option ℚ
  | [], _ => none
  | p :: rest, k => if p.1 == k then some p.2 else storeFind rest k

/-- JS `Map.set`: replace the existing binding in place, else append. -/
def storeSet (m : Store) (k : String) (v : ℚ) : Store :=
  match m with
  | [] => [(k, v)]
  | p :: rest => if p.1 == k then (k, v) :: rest else p :: storeSet rest k v

/-- Constant `EVENT_CACHE_TTL = 5 * 60 * 1000` (milliseconds). -/
def EVENT_CACHE_TTL : ℚ := 5 * 60 * 1000

/-- Retention used by the milestone branch of the sweep: `60 * 60 * 1000`. -/
def MILESTONE_CACHE_TTL : ℚ := 60 * 60 * 1000

/-- One sweep pass over `processedEvents`: delete every entry whose
recorded number `ts` satisfies `now - ts > EVENT_CACHE_TTL`. -/
def sweepDedup (now : ℚ) (m : Store) : Store :=
  m.filter (fun p => !(decide (now - p.2 > EVENT_CACHE_TTL)))

/-- The milestone branch of the same sweep callback: delete every entry
whose recorded number `ts` satisfies `now - ts > 60 * 60 * 1000`.  (The
code iterates `milestoneCache` binding the stored number as `timestamp`,
but the number actually stored there is a milestone threshold.) -/
def sweepMilestone (now : ℚ) (m : Store) : Store :=
  m.filter (fun p => !(decide (now - p.2 > MILESTONE_CACHE_TTL)))

/-- Function `isDuplicateEvent`: return `true` if the key is present; otherwise
record it with the current time and return `false`. -/
def isDuplicateEvent (eventId : String) (now : ℚ) (m : Store) : Bool × Store :=
  if storeHas m eventId then (true, m) else (false, storeSet m eventId now)

/-- An operation touching the dedup store: an event delivery running the
`isDuplicateEvent` check at a given wall time, or a sweep tick. -/
inductive DedupOp where
  | deliver : String → ℚ → DedupOp
  | sweep : ℚ → DedupOp
  deriving DecidableEq

/-- Apply one operation to the dedup store. -/
def applyDedupOp (m : Store) : DedupOp → Store
  | DedupOp.deliver id t => (isDuplicateEvent id t m).2
  | DedupOp.sweep t => sweepDedup t m

/-- Run a sequence of operations on the dedup store. -/
def runDedupOps (m : Store) (ops : List DedupOp) : Store :=
  ops.foldl applyDedupOp m

/-! ## Milestone tracker -/

/-- The template-string cache key: `` `${userId}:${milestoneType}` ``. -/
def milestoneKey (userId : Value) (milestoneType : String) : String :=
  jsToString userId ++ ":" ++ milestoneType

/-- The loop body of `checkAndNotifyMilestone`: the first milestone `m`
of the ladder (in order) with `oldValue < m && newValue >= m && m >
lastNotified`, if any. -/
def checkMilestones (oldValue newValue : JSNum) (lastNotified : ℚ) :
    List ℚ → Option ℚ
  | [] => none
  | m :: rest =>
      if JSNum.ltb oldValue (JSNum.num m) && JSNum.geb newValue (JSNum.num m)
          && decide (m > lastNotified) then
        some m
      else checkMilestones oldValue newValue lastNotified rest

/-- Function `checkAndNotifyMilestone`: look up the last notified threshold (`|| 0`),
scan the ladder in order, and on the first qualifying milestone record it
in the cache and return it; otherwise return `null`.  (Bug faithfully
preserved: the value recorded in `milestoneCache` is the milestone
threshold itself, which the sweep later reads as a timestamp.)  The
message-generator callback of the source only formats text, so the model
returns the crossed threshold instead of the formatted message. -/
def checkAndNotifyMilestone (userId : Value) (milestoneType : String)
    (oldValue newValue : JSNum) (milestones : List ℚ) (cache : Store) :
    Store × Option ℚ :=
  let cacheKey := milestoneKey userId milestoneType
  let lastNotified := (storeFind cache cacheKey).getD 0
  match checkMilestones oldValue newValue lastNotified milestones with
  | some m => (storeSet cache cacheKey m, some m)
  | none => (cache, none)

/-- The `Users` volume ladder. -/
def volumeMilestones : List ℚ := [1000, 5000, 10000, 25000, 50000, 100000]

/-- The `Users` transaction-count ladder. -/
def txnMilestones : List ℚ := [10, 50, 100, 500, 1000]

/-! ## Event classifier

Each handler is modelled as a function from the payload (and, where the
handler touches it, the milestone cache) to the list of notification
intents it sends, in emission order.  Message formatting is carried as
the semantic data of each intent. -/

/-- Notification intents, one constructor per `sendTelegramMessage` site
of the change-feed handlers. -/
inductive Notif where
  | userInsert : Value → Notif
  | deposit : Value → JSNum → JSNum → Notif
  | pnl : JSNum → JSNum → Notif
  | volumeMilestone : ℚ → JSNum → Notif
  | txnMilestone : ℚ → JSNum → Notif
  | copytrading : Bool → Notif
  | fees : JSNum → JSNum → Notif
  | tradeExecuted : Notif
  | tradeFailed : Notif
  | tradeSkipped : Notif
  | tradeInsert : Notif
  | walletInsert : Notif
  | walletFlip : Bool → Notif
  | ratioChange : JSNum → JSNum → Notif
  | mauInsert : Notif
  deriving DecidableEq, Repr

/-- Recogniser for deposit intents. -/
def Notif.isDeposit : Notif → Bool
  | Notif.deposit _ _ _ => true
  | _ => false

/-- The deposit-detection section of the `Users` UPDATE handler. -/
def usersDepositNotifs (id : Value) (userNew userOld : Row) : List Notif :=
  let newAmt := numField userNew "amount_deposited"
  let oldAmt := numField userOld "amount_deposited"
  if JSNum.gtb newAmt oldAmt && JSNum.geb oldAmt (JSNum.num 0) then
    let depositAmount := JSNum.sub newAmt oldAmt
    -- Minimum threshold to avoid dust
    if JSNum.gtb depositAmount (JSNum.num (1 / 100)) then
      [Notif.deposit id depositAmount newAmt]
    else []
  else []

/-- The PnL-change section of the `Users` UPDATE handler. -/
def usersPnlNotifs (userNew userOld : Row) : List Notif :=
  let newPnL := numField userNew "total_pnl"
  let oldPnL := numField userOld "total_pnl"
  let pnlChange := JSNum.sub newPnL oldPnL
  if JSNum.geb (JSNum.absn pnlChange) (JSNum.num 100) then
    [Notif.pnl pnlChange newPnL]
  else []

/-- The volume-milestone section: milestone check plus the notification
it implies. -/
def usersVolumeCheck (id : Value) (userNew userOld : Row) (mcache : Store) :
    Store × List Notif :=
  let newVolume := numField userNew "total_volume"
  let oldVolume := numField userOld "total_volume"
  let vres := checkAndNotifyMilestone id "volume" oldVolume newVolume
    volumeMilestones mcache
  (vres.1,
    match vres.2 with
    | some m => [Notif.volumeMilestone m newVolume]
    | none => [])

/-- The transaction-milestone section. -/
def usersTxnCheck (id : Value) (userNew userOld : Row) (mcache : Store) :
    Store × List Notif :=
  let newTxns := numField userNew "txns_executed"
  let oldTxns := numField userOld "txns_executed"
  let tres := checkAndNotifyMilestone id "txns" oldTxns newTxns
    txnMilestones mcache
  (tres.1,
    match tres.2 with
    | some m => [Notif.txnMilestone m newTxns]
    | none => [])

/-- The copytrading-flip section (guarded on the flag key being present
in the old image). -/
def usersCopyNotifs (userNew userOld : Row) : List Notif :=
  if Row.hasKey userOld "is_copytrading_enabled" then
    let newCopy := (Row.get userNew "is_copytrading_enabled").truthy
    let oldCopy := (Row.get userOld "is_copytrading_enabled").truthy
    if newCopy != oldCopy then [Notif.copytrading newCopy] else []
  else []

/-- The fee-accumulation section. -/
def usersFeeNotifs (userNew userOld : Row) : List Notif :=
  let newFees := numField userNew "fees_total"
  let oldFees := numField userOld "fees_total"
  let feeIncrease := JSNum.sub newFees oldFees
  if JSNum.geb feeIncrease (JSNum.num 50) then
    [Notif.fees feeIncrease newFees]
  else []

/-- The `Users` UPDATE handler body after the dedup check: the
"insufficient old data" guard, then deposit, PnL, volume milestone,
transaction milestone, copytrading flip and fee checks, in source order.
Returns the milestone cache after both milestone checks and the emitted
notifications in emission order. -/
def classifyUsersUpdate (payload : Payload) (mcache : Store) :
    Store × List Notif :=
  let userNew := payload.new
  let userOld := payload.old.getD []
  let id := Row.get userNew "id"
  -- const hasRelevantOldData = userOld && Object.keys(userOld).length > 1
  if !(decide (Row.keyCount userOld > 1)) then (mcache, [])
  else
    let v := usersVolumeCheck id userNew userOld mcache
    let t := usersTxnCheck id userNew userOld v.1
    (t.1,
      usersDepositNotifs id userNew userOld ++ usersPnlNotifs userNew userOld
        ++ v.2 ++ t.2 ++ usersCopyNotifs userNew userOld
        ++ usersFeeNotifs userNew userOld)

/-- Optional chaining through a possibly absent row, as in
`payload.old?.status`. -/
def optRowGet (r : Option Row) (k : String) : Value :=
  match r with
  | some row => Row.get row k
  | none => Value.vUndef

/-- JS `String.prototype.toLowerCase()` (ASCII case mapping suffices for
the status strings this code compares). -/
def jsToLower (s : String) : String := String.mk (s.data.map Char.toLower)

/-- The `Auto_Trade` UPDATE handler body after the dedup check.  Note: no
"insufficient old data" guard here — the handler compares the lowercased
statuses directly (a missing old status reads as `""`). -/
def classifyAutoTradeUpdate (payload : Payload) : List Notif :=
  let status := jsToLower (jsToString (jsOr (optRowGet (some payload.new) "status")
    (Value.vStr "")))
  let prevStatus := jsToLower (jsToString (jsOr (optRowGet payload.old "status")
    (Value.vStr "")))
  if status != prevStatus then
    if status = "executed" then [Notif.tradeExecuted]
    else if status = "failed" then [Notif.tradeFailed]
    else if status = "skipped" then [Notif.tradeSkipped]
    else []
  else []

/-- The `Copy_Wallets` UPDATE handler body after the dedup check. -/
def classifyCopyWalletsUpdate (payload : Payload) : List Notif :=
  let walletNew := payload.new
  let walletOld := payload.old.getD []
  if decide (Row.keyCount walletOld ≤ 1) then []
  else
    let newEnabled := Row.get walletNew "is_enabled"
    let oldEnabled := Row.get walletOld "is_enabled"
    let newRatio := Row.get walletNew "percent_ratio"
    let oldRatio := Row.get walletOld "percent_ratio"
    if newEnabled != oldEnabled then
      [Notif.walletFlip newEnabled.truthy]
    else if JSNum.gtb (JSNum.absn (JSNum.sub (toNumber newRatio)
        (toNumber oldRatio))) (JSNum.num (1 / 1000)) then
      [Notif.ratioChange (toNumber oldRatio) (toNumber newRatio)]
    else []

/-- The `Users` INSERT handler: dedup check, then one welcome
notification. -/
def handleUsersInsert (eventId : String) (now : ℚ) (payload : Payload)
    (dedup : Store) : Store × List Notif :=
  let r := isDuplicateEvent eventId now dedup
  if r.1 then (r.2, [])
  else (r.2, [Notif.userInsert (Row.get payload.new "id")])

/-! ## HTML escaping and message formatting -/

/-- One global character replacement (`String.replace(/c/g, rep)`). -/
def replChar (target : Char) (rep : List Char) : List Char → List Char
  | [] => []
  | c :: cs => (if c = target then rep else [c]) ++ replChar target rep cs

/-- Function `escapeHtml`: empty string on `null`/`undefined`; otherwise
convert to a string and replace, in order, `&` by `&amp;`, `<` by `&lt;`,
`>` by `&gt;`. -/
def escapeHtml (str : Value) : String :=
  match str with
  | Value.vNull => ""
  | Value.vUndef => ""
  | v =>
      String.mk (replChar '>' "&gt;".data
        (replChar '<' "&lt;".data
          (replChar '&' "&amp;".data (jsToString v).data)))

/-- Function `fmt`: the string 0 on `null`/`undefined`, `n.toString()` on
numbers, `String(n)` otherwise.  Strings pass through unchanged. -/
def fmt (n : Value) : String :=
  match n with
  | Value.vNull => "0"
  | Value.vUndef => "0"
  | Value.vNum q => qToString q
  | v => jsToString v

/-- The flat order record destructured from a parsed SQS message body.
Fields absent from the JSON read as `undefined`. -/
structure OrderData where
  userId : Value
  username : Value
  orderId : Value
  orderType : Value
  side : Value
  marketId : Value
  marketQuestion : Value
  amount : Value
  shares : Value
  executionPrice : Value
  txHash : Value
  timestamp : Value
  status : Value
  outcome : Value
  deriving DecidableEq

/-- The `statusEmoji[status]` object lookup (key coerced to string). -/
def statusEmojiFor (status : Value) : Option String :=
  match jsToString status with
  | "matched" => some "✅"
  | "filled" => some "✅"
  | "partial" => some "⚠️"
  | "cancelled" => some "❌"
  | "failed" => some "❌"
  | "pending" => some "⏳"
  | _ => none

/-- The message text built by `processSQSOrder`. -/
def processSQSOrderMsg (o : OrderData) : String :=
  let sideEmoji := if o.side = Value.vStr "YES" then "🟢" else "🔴"
  let emoji := (statusEmojiFor o.status).getD "📊"
  emoji ++ " <b>Order " ++ jsToString o.status ++ "</b> " ++ sideEmoji
    ++ "\n" ++
  "User: @" ++ escapeHtml o.username ++ " (<code>" ++ escapeHtml o.userId
    ++ "</code>)\n" ++
  "Market: <b>" ++ escapeHtml o.marketQuestion ++ "</b>\n" ++
  "Side: <b>" ++ escapeHtml o.side ++ "</b> | Outcome: <b>"
    ++ escapeHtml o.outcome ++ "</b>\n" ++
  "Amount: <b>$" ++ fmt o.amount ++ "</b> | Shares: <b>" ++ fmt o.shares
    ++ "</b>\n" ++
  "Price: <b>" ++ fmt o.executionPrice ++ "</b>\n" ++
  "Order ID: <code>" ++ escapeHtml o.orderId ++ "</code>\n" ++
  "TX Hash: <code>" ++ escapeHtml o.txHash ++ "</code>\n" ++
  "Time: <code>" ++ escapeHtml o.timestamp ++ "</code>"

/-- Externally visible effects of handling one SQS message. -/
inductive MsgAction where
  | chatSend : String → MsgAction
  | deleteMsg : String → MsgAction
  deriving DecidableEq

/-- The per-message body of the `pollSQSMessages` loop.  `JSON.parse`
success or failure is carried as `Option OrderData` (the `try`/`catch`
of the source maps to the two cases): on success the formatted message
is sent and the message deleted; on failure the message is still
deleted, with no send. -/
def handleSQSMessage (parsed : Option OrderData) (receipt : String) :
    List MsgAction :=
  match parsed with
  | some o => [MsgAction.chatSend (processSQSOrderMsg o),
      MsgAction.deleteMsg receipt]
  | none => [MsgAction.deleteMsg receipt]

/-! ## Store lemmas -/

theorem storeHas_false_iff (m : Store) (k : String) :
    storeHas m k = false ↔ ∀ p ∈ m, p.1 ≠ k := by
  induction m with
  | nil => simp [storeHas]
  | cons p rest ih =>
      by_cases h : p.1 = k
      · simp [storeHas, h]
      · simp [storeHas, h, ih]

theorem storeHas_of_mem {m : Store} {k : String} {t : ℚ} (h : (k, t) ∈ m) :
    storeHas m k = true := by
  induction m with
  | nil => cases h
  | cons p rest ih =>
      rcases List.mem_cons.1 h with hp | hmem
      · simp [storeHas, ← hp]
      · by_cases hk : p.1 = k
        · simp [storeHas, hk]
        · simp [storeHas, hk, ih hmem]

theorem storeSet_append_of_not_has {m : Store} {k : String} (v : ℚ)
    (h : storeHas m k = false) : storeSet m k v = m ++ [(k, v)] := by
  induction m with
  | nil => rfl
  | cons p rest ih =>
      rw [storeHas_false_iff] at h
      have hp : p.1 ≠ k := h p (List.mem_cons_self p rest)
      have hrest : storeHas rest k = false := by
        rw [storeHas_false_iff]
        exact fun q hq => h q (List.mem_cons_of_mem p hq)
      simp only [storeSet, beq_iff_eq, hp, if_false, ih hrest,
        List.cons_append]

theorem mem_storeSet_of_ne {m : Store} {k : String} {v : ℚ}
    {p : String × ℚ} (hp : p ∈ m) (hne : p.1 ≠ k) : p ∈ storeSet m k v := by
  induction m with
  | nil => cases hp
  | cons q rest ih =>
      rcases List.mem_cons.1 hp with hq | hmem
      · subst hq
        simp only [storeSet]
        simp [beq_iff_eq, hne]
      · simp only [storeSet]
        by_cases hqk : q.1 = k
        · simp only [beq_iff_eq, hqk, if_true]
          exact List.mem_cons_of_mem _ hmem
        · simp only [beq_iff_eq, hqk, if_false]
          exact List.mem_cons_of_mem _ (ih hmem)

theorem storeFind_storeSet_self (m : Store) (k : String) (v : ℚ) :
    storeFind (storeSet m k v) k = some v := by
  induction m with
  | nil => simp [storeSet, storeFind]
  | cons p rest ih =>
      by_cases h : p.1 = k
      · simp [storeSet, h, storeFind]
      · simp [storeSet, storeFind, h, ih]

theorem mem_sweepDedup {m : Store} {k : String} {t : ℚ} (now : ℚ)
    (hmem : (k, t) ∈ m) (hfresh : ¬ now - t > EVENT_CACHE_TTL) :
    (k, t) ∈ sweepDedup now m := by
  refine List.mem_filter.2 ⟨hmem, ?_⟩
  simpa using hfresh

theorem storeHas_sweepDedup_expired {m : Store} {k : String} {t now : ℚ}
    (h : storeHas m k = false) (hexp : now - t > EVENT_CACHE_TTL) :
    storeHas (sweepDedup now (storeSet m k t)) k = false := by
  rw [storeSet_append_of_not_has t h]
  rw [storeHas_false_iff]
  intro p hp
  have hp' := List.mem_filter.1 hp
  rcases List.mem_append.1 hp'.1 with hm | hk
  · exact (storeHas_false_iff m k).1 h p hm
  · exfalso
    have hpk : p = (k, t) := by simpa using hk
    subst hpk
    have hkeep := hp'.2
    simp only [Bool.not_eq_true', decide_eq_false_iff_not] at hkeep
    exact hkeep hexp

/-! ## Dedup-trace lemmas -/

theorem isDuplicateEvent_fst (e : String) (now : ℚ) (m : Store) :
    (isDuplicateEvent e now m).1 = storeHas m e := by
  by_cases h : storeHas m e = true <;> simp [isDuplicateEvent, h]

theorem isDuplicateEvent_snd_of_has {e : String} {m : Store} (now : ℚ)
    (h : storeHas m e = true) : (isDuplicateEvent e now m).2 = m := by
  simp [isDuplicateEvent, h]

theorem mem_runDedupOps {e : String} {t1 : ℚ} :
    ∀ (ops : List DedupOp) (m : Store), (e, t1) ∈ m →
    (∀ s, DedupOp.sweep s ∈ ops → s - t1 ≤ EVENT_CACHE_TTL) →
    (e, t1) ∈ runDedupOps m ops := by
  intro ops
  induction ops with
  | nil => intro m hm _; exact hm
  | cons op rest ih =>
      intro m hm hops
      have hrest : ∀ s, DedupOp.sweep s ∈ rest → s - t1 ≤ EVENT_CACHE_TTL :=
        fun s hs => hops s (List.mem_cons_of_mem op hs)
      show (e, t1) ∈ runDedupOps (applyDedupOp m op) rest
      refine ih (applyDedupOp m op) ?_ hrest
      cases op with
      | deliver id t =>
          simp only [applyDedupOp, isDuplicateEvent]
          by_cases hhas : storeHas m id = true
          · simpa [hhas] using hm
          · simp only [Bool.not_eq_true] at hhas
            simp only [hhas, Bool.false_eq_true, if_false]
            have hne : e ≠ id := by
              intro hcontra
              subst hcontra
              rw [storeHas_of_mem hm] at hhas
              cases hhas
            exact mem_storeSet_of_ne hm hne
      | sweep s =>
          have hs : s - t1 ≤ EVENT_CACHE_TTL :=
            hops s (List.mem_cons_self _ _)
          exact mem_sweepDedup s hm (not_lt.2 hs)

/-! ## Milestone-tracker lemmas -/

theorem checkMilestones_some_gt {o n : JSNum} {last m : ℚ} :
    ∀ {ms : List ℚ}, checkMilestones o n last ms = some m → m > last := by
  intro ms
  induction ms with
  | nil => intro h; cases h
  | cons m0 rest ih =>
      intro h
      simp only [checkMilestones] at h
      by_cases hc : (JSNum.ltb o (JSNum.num m0)
          && JSNum.geb n (JSNum.num m0) && decide (m0 > last)) = true
      · rw [if_pos hc] at h
        have hm : m0 = m := by simpa using h
        subst hm
        simp only [Bool.and_eq_true, decide_eq_true_eq] at hc
        exact hc.2
      · rw [if_neg hc] at h
        exact ih h

theorem checkMilestones_cons_pos {o n last m0 : ℚ} (rest : List ℚ)
    (h1 : o < m0) (h2 : m0 ≤ n) (h3 : m0 > last) :
    checkMilestones (JSNum.num o) (JSNum.num n) last (m0 :: rest) = some m0 := by
  simp [checkMilestones, JSNum.ltb, JSNum.geb, JSNum.leb, h1, h2, h3]

theorem checkAndNotifyMilestone_eq_some {u : Value} {ty : String}
    {o n : JSNum} {ms : List ℚ} {cache c' : Store} {t : ℚ}
    (h : checkAndNotifyMilestone u ty o n ms cache = (c', some t)) :
    checkMilestones o n ((storeFind cache (milestoneKey u ty)).getD 0) ms
        = some t ∧
    c' = storeSet cache (milestoneKey u ty) t := by
  simp only [checkAndNotifyMilestone] at h
  rcases hcm : checkMilestones o n
      ((storeFind cache (milestoneKey u ty)).getD 0) ms with _ | m
  · rw [hcm] at h
    cases h
  · rw [hcm] at h
    have h1 := congrArg Prod.fst h
    have h2 := congrArg Prod.snd h
    simp only at h1 h2
    have hm : m = t := by simpa using h2
    subst hm
    exact ⟨rfl, h1.symm⟩

/-! ## Classifier lemmas -/

theorem numField_vNum {r : Row} {k : String} {a : ℚ}
    (h : Row.get r k = Value.vNum a) : numField r k = JSNum.num a := by
  by_cases h0 : a = 0
  · subst h0
    simp [numField, h, jsOr, Value.truthy, toNumber]
  · simp [numField, h, jsOr, Value.truthy, toNumber, h0]

theorem JSNum.ltb_nan_left (x : JSNum) : JSNum.ltb JSNum.nan x = false := by
  cases x <;> rfl

theorem JSNum.ltb_nan_right (x : JSNum) : JSNum.ltb x JSNum.nan = false := by
  cases x <;> rfl

theorem JSNum.leb_nan_left (x : JSNum) : JSNum.leb JSNum.nan x = false := by
  cases x <;> rfl

theorem JSNum.leb_nan_right (x : JSNum) : JSNum.leb x JSNum.nan = false := by
  cases x <;> rfl

theorem JSNum.gtb_of_nan_right (x : JSNum) :
    JSNum.gtb x JSNum.nan = false := by
  cases x <;> rfl

theorem JSNum.sub_nan_left (x : JSNum) :
    JSNum.sub JSNum.nan x = JSNum.nan := by
  cases x <;> rfl

theorem JSNum.sub_nan_right (x : JSNum) :
    JSNum.sub x JSNum.nan = JSNum.nan := by
  cases x <;> rfl

theorem usersDepositNotifs_nan (id : Value) (rn ro : Row)
    (h : numField rn "amount_deposited" = JSNum.nan ∨
      numField ro "amount_deposited" = JSNum.nan) :
    usersDepositNotifs id rn ro = [] := by
  rcases h with h | h <;>
    simp [usersDepositNotifs, h, JSNum.gtb, JSNum.ltb_nan_left,
      JSNum.ltb_nan_right]

theorem usersPnlNotifs_nan (rn ro : Row)
    (h : numField rn "total_pnl" = JSNum.nan ∨
      numField ro "total_pnl" = JSNum.nan) :
    usersPnlNotifs rn ro = [] := by
  rcases h with h | h <;>
    simp [usersPnlNotifs, h, JSNum.sub_nan_left, JSNum.sub_nan_right,
      JSNum.absn, JSNum.geb, JSNum.leb_nan_right]

theorem usersFeeNotifs_nan (rn ro : Row)
    (h : numField rn "fees_total" = JSNum.nan ∨
      numField ro "fees_total" = JSNum.nan) :
    usersFeeNotifs rn ro = [] := by
  rcases h with h | h <;>
    simp [usersFeeNotifs, h, JSNum.sub_nan_left, JSNum.sub_nan_right,
      JSNum.geb, JSNum.leb_nan_right]

theorem checkMilestones_nan {o n : JSNum} (last : ℚ)
    (h : o = JSNum.nan ∨ n = JSNum.nan) :
    ∀ ms : List ℚ, checkMilestones o n last ms = none := by
  intro ms
  rcases h with h | h
  · subst h
    induction ms with
    | nil => rfl
    | cons m rest ih => simp [checkMilestones, JSNum.ltb_nan_left, ih]
  · subst h
    induction ms with
    | nil => rfl
    | cons m rest ih => simp [checkMilestones, JSNum.geb, JSNum.leb_nan_right, ih]

theorem checkAndNotifyMilestone_nan (u : Value) (ty : String) {o n : JSNum}
    (ms : List ℚ) (cache : Store) (h : o = JSNum.nan ∨ n = JSNum.nan) :
    checkAndNotifyMilestone u ty o n ms cache = (cache, none) := by
  simp only [checkAndNotifyMilestone, checkMilestones_nan _ h ms]

theorem usersVolumeCheck_nan (id : Value) (rn ro : Row) (mc : Store)
    (h : numField rn "total_volume" = JSNum.nan ∨
      numField ro "total_volume" = JSNum.nan) :
    usersVolumeCheck id rn ro mc = (mc, []) := by
  simp only [usersVolumeCheck,
    checkAndNotifyMilestone_nan id "volume" volumeMilestones mc h.symm]

theorem usersTxnCheck_nan (id : Value) (rn ro : Row) (mc : Store)
    (h : numField rn "txns_executed" = JSNum.nan ∨
      numField ro "txns_executed" = JSNum.nan) :
    usersTxnCheck id rn ro mc = (mc, []) := by
  simp only [usersTxnCheck,
    checkAndNotifyMilestone_nan id "txns" txnMilestones mc h.symm]

theorem filter_isDeposit_self (id : Value) (userNew userOld : Row) :
    (usersDepositNotifs id userNew userOld).filter Notif.isDeposit
      = usersDepositNotifs id userNew userOld := by
  simp only [usersDepositNotifs]
  split
  · split <;> rfl
  · rfl

theorem filter_isDeposit_pnl (userNew userOld : Row) :
    (usersPnlNotifs userNew userOld).filter Notif.isDeposit = [] := by
  simp only [usersPnlNotifs]
  split <;> rfl

theorem filter_isDeposit_volume (id : Value) (userNew userOld : Row)
    (mc : Store) :
    ((usersVolumeCheck id userNew userOld mc).2).filter Notif.isDeposit
      = [] := by
  simp only [usersVolumeCheck]
  split <;> rfl

theorem filter_isDeposit_txn (id : Value) (userNew userOld : Row)
    (mc : Store) :
    ((usersTxnCheck id userNew userOld mc).2).filter Notif.isDeposit
      = [] := by
  simp only [usersTxnCheck]
  split <;> rfl

theorem filter_isDeposit_copy (userNew userOld : Row) :
    (usersCopyNotifs userNew userOld).filter Notif.isDeposit = [] := by
  simp only [usersCopyNotifs]
  split
  · split <;> rfl
  · rfl

theorem filter_isDeposit_fee (userNew userOld : Row) :
    (usersFeeNotifs userNew userOld).filter Notif.isDeposit = [] := by
  simp only [usersFeeNotifs]
  split <;> rfl

theorem classifyUsersUpdate_filter_isDeposit (p : Payload) (mc : Store)
    (hold : Row.keyCount (p.old.getD []) > 1) :
    ((classifyUsersUpdate p mc).2).filter Notif.isDeposit
      = usersDepositNotifs (Row.get p.new "id") p.new (p.old.getD []) := by
  simp only [classifyUsersUpdate]
  rw [if_neg (by simp [hold])]
  simp only [List.filter_append, filter_isDeposit_self, filter_isDeposit_pnl,
    filter_isDeposit_volume, filter_isDeposit_txn, filter_isDeposit_copy,
    filter_isDeposit_fee, List.append_nil]

theorem checkAndNotifyMilestone_eq_none {u : Value} {ty : String}
    {o n : JSNum} {ms : List ℚ} {cache c' : Store}
    (h : checkAndNotifyMilestone u ty o n ms cache = (c', none)) :
    c' = cache := by
  simp only [checkAndNotifyMilestone] at h
  rcases hcm : checkMilestones o n
      ((storeFind cache (milestoneKey u ty)).getD 0) ms with _ | m
  · rw [hcm] at h
    have h1 := congrArg Prod.fst h
    simpa using h1.symm
  · rw [hcm] at h
    have h2 := congrArg Prod.snd h
    cases h2

/-! ## Escaping lemmas -/

theorem mem_replChar {x target : Char} {rep : List Char} :
    ∀ {l : List Char}, x ∈ replChar target rep l →
      x ∈ rep ∨ (x ∈ l ∧ x ≠ target) := by
  intro l
  induction l with
  | nil => intro h; cases h
  | cons c cs ih =>
      intro h
      simp only [replChar] at h
      rcases List.mem_append.1 h with h1 | h2
      · by_cases hc : c = target
        · rw [if_pos hc] at h1
          exact Or.inl h1
        · rw [if_neg hc] at h1
          have hx : x = c := by simpa using h1
          subst hx
          exact Or.inr ⟨List.mem_cons_self _ _, hc⟩
      · rcases ih h2 with h3 | h4
        · exact Or.inl h3
        · exact Or.inr ⟨List.mem_cons_of_mem _ h4.1, h4.2⟩

theorem no_lt_after_escape (l : List Char) :
    '<' ∉ replChar '>' "&gt;".data (replChar '<' "&lt;".data l) := by
  intro h
  rcases mem_replChar h with h1 | ⟨h2, _⟩
  · revert h1; decide
  · rcases mem_replChar h2 with h3 | ⟨_, hne⟩
    · revert h3; decide
    · exact hne rfl

theorem no_gt_after_escape (l : List Char) :
    '>' ∉ replChar '>' "&gt;".data l := by
  intro h
  rcases mem_replChar h with h1 | ⟨_, hne⟩
  · revert h1; decide
  · exact hne rfl

/-! ## Claim theorems -/

/-- C1: the claim states a `MilestoneState` entry survives any sweep tick
occurring less than 1 hour after the entry was last updated.  The code
stores the crossed *threshold* in `milestoneCache` (not a timestamp), and
the sweep compares `Date.now()` against that stored number, so a freshly
updated entry is evicted at the very next tick: here the entry
`"7:volume" ↦ 1000` is recorded (at wall time `1760000000000`) and the
sweep tick 60 seconds later — far less than `MILESTONE_CACHE_TTL` after
the update — deletes it, because `1760000060000 - 1000 > 3600000`. -/
theorem c1_milestone_sweep_evicts_fresh_entry :
    (checkAndNotifyMilestone (Value.vNum 7) "volume" (JSNum.num 900)
        (JSNum.num 1200) volumeMilestones []).1 = [("7:volume", 1000)] ∧
    sweepMilestone 1760000060000 [("7:volume", 1000)] = [] ∧
    (1760000060000 : ℚ) - 1760000000000 < MILESTONE_CACHE_TTL := by
  refine ⟨?_, ?_, ?_⟩
  · with_unfolding_all decide
  · with_unfolding_all decide
  · norm_num [MILESTONE_CACHE_TTL]

/-- C2 counterexample: an `Auto_Trade` UPDATE whose `before` image holds
only the primary key still emits a field-level (status-transition)
notification — the `Auto_Trade` UPDATE handler has no
"insufficient old data" guard, and the missing old status reads as `""`,
which differs from `"executed"`. -/
theorem c2_autotrade_empty_before_counterexample :
    classifyAutoTradeUpdate
        ⟨[("id", Value.vNum 1), ("status", Value.vStr "EXECUTED")],
          some [("id", Value.vNum 1)]⟩ = [Notif.tradeExecuted] ∧
    Row.keyCount [("id", Value.vNum 1)] ≤ 1 := by
  constructor
  · with_unfolding_all decide
  · decide

/-- C2 amended: the empty-`before` suppression (evaluated once per
UPDATE, before any field comparison) holds for the `Users` and
`Copy_Wallets` UPDATE handlers — when `before` carries at most the
primary key they emit zero notifications and leave the milestone cache
untouched — but not for `Auto_Trade`. -/
theorem c2_empty_before_suppression (p : Payload) (mc : Store)
    (hold : Row.keyCount (p.old.getD []) ≤ 1) :
    classifyUsersUpdate p mc = (mc, []) ∧
    classifyCopyWalletsUpdate p = [] := by
  constructor
  · simp only [classifyUsersUpdate]
    rw [if_pos (by simp [Nat.not_lt.2 hold])]
  · simp only [classifyCopyWalletsUpdate]
    rw [if_pos (by simp [hold])]

/-- Witness for C2 amended at a concrete bare-primary-key payload. -/
theorem c2_empty_before_suppression_witness :
    classifyUsersUpdate ⟨[("id", Value.vNum 1), ("amount_deposited", Value.vNum 5)],
        some [("id", Value.vNum 1)]⟩ [] = ([], []) ∧
    classifyCopyWalletsUpdate ⟨[("id", Value.vNum 1), ("is_enabled", Value.vBool true)],
        some [("id", Value.vNum 1)]⟩ = [] := by
  constructor
  · exact (c2_empty_before_suppression
      ⟨[("id", Value.vNum 1), ("amount_deposited", Value.vNum 5)],
        some [("id", Value.vNum 1)]⟩ [] (by decide)).1
  · exact (c2_empty_before_suppression
      ⟨[("id", Value.vNum 1), ("is_enabled", Value.vBool true)],
        some [("id", Value.vNum 1)]⟩ [] (by decide)).2

/-- C8: a queue message whose body fails `JSON.parse` (the `none` case of
the per-message handler) is acknowledged — its receipt handle is deleted
— and no chat-send action is produced for it, so it is never retried. -/
theorem c8_invalid_json_acked_no_send :
    ∀ receipt : String,
      handleSQSMessage none receipt = [MsgAction.deleteMsg receipt] ∧
      ∀ s : String, MsgAction.chatSend s ∉ handleSQSMessage none receipt := by
  intro receipt
  refine ⟨rfl, ?_⟩
  intro s hs
  simp [handleSQSMessage] at hs

/-- C3 counterexample: two deliveries of the same key separated by more
than the 5-minute retention window (here `300001 ms > EVENT_CACHE_TTL`)
where the second is nevertheless classified a duplicate: every sweep tick
scheduled up to the second delivery (ticks at 60 s intervals, the last at
`300000`) has run, but at the last tick the entry was exactly 300000 ms
old — not *older* than the window — so it survives, and no further tick
occurs before the redelivery at `300001`. -/
theorem c3_redelivery_after_window_counterexample :
    (isDuplicateEvent "e" 0 ([] : Store)).1 = false ∧
    (isDuplicateEvent "e" 300001 (runDedupOps (isDuplicateEvent "e" 0 []).2
      [DedupOp.sweep 60000, DedupOp.sweep 120000, DedupOp.sweep 180000,
       DedupOp.sweep 240000, DedupOp.sweep 300000])).1 = true ∧
    (300001 : ℚ) - 0 > EVENT_CACHE_TTL := by
  refine ⟨rfl, ?_, ?_⟩
  · with_unfolding_all decide
  · norm_num [EVENT_CACHE_TTL]

/-- C3 amended: a redelivery of the same key is classified independently
(as new) once a sweep tick has run at a time more than `EVENT_CACHE_TTL`
after the first delivery; since ticks run every 60 s, a separation
greater than `EVENT_CACHE_TTL + 60000` guarantees such a tick exists
(some positive multiple of 60000 lies strictly between expiry and the
second delivery). -/
theorem c3_redelivery_independent_after_sweep :
    (∀ (m0 : Store) (e : String) (t1 s t2 : ℚ),
      storeHas m0 e = false → s - t1 > EVENT_CACHE_TTL →
      (isDuplicateEvent e t1 m0).1 = false ∧
      (isDuplicateEvent e t2
        (sweepDedup s (isDuplicateEvent e t1 m0).2)).1 = false) ∧
    (∀ t1 t2 : ℚ, 0 ≤ t1 → t2 - t1 > EVENT_CACHE_TTL + 60000 →
      ∃ k : ℤ, 0 < k ∧ t1 + EVENT_CACHE_TTL < 60000 * (k : ℚ) ∧
        60000 * (k : ℚ) ≤ t2) := by
  constructor
  · intro m0 e t1 s t2 h0 hexp
    have hset : (isDuplicateEvent e t1 m0).2 = storeSet m0 e t1 := by
      simp [isDuplicateEvent, h0]
    constructor
    · simp [isDuplicateEvent, h0]
    · rw [hset]
      have hgone := storeHas_sweepDedup_expired h0 hexp
      simp [isDuplicateEvent, hgone]
  · intro t1 t2 h0 hgap
    have hc : (0 : ℚ) < 60000 := by norm_num
    have httl : (0 : ℚ) < EVENT_CACHE_TTL := by norm_num [EVENT_CACHE_TTL]
    set x : ℚ := (t1 + EVENT_CACHE_TTL) / 60000 with hx
    refine ⟨⌊x⌋ + 1, ?_, ?_, ?_⟩
    · have hx0 : 0 ≤ x := by
        apply div_nonneg _ (le_of_lt hc)
        linarith
      have := Int.floor_nonneg.2 hx0
      omega
    · have hlt := Int.lt_floor_add_one x
      rw [hx, div_lt_iff₀ hc] at hlt
      push_cast
      linarith
    · have hle := Int.floor_le x
      have : (⌊x⌋ : ℚ) * 60000 ≤ x * 60000 :=
        mul_le_mul_of_nonneg_right hle (le_of_lt hc)
      rw [hx, div_mul_cancel₀ _ (ne_of_gt hc)] at this
      push_cast
      linarith

/-- Witness for C3 amended: first delivery at `0`, sweep at `300001`,
redelivery at `300002` is fresh; and for deliveries at `0` and `360001`
a qualifying tick multiple exists. -/
theorem c3_redelivery_independent_witness :
    ((isDuplicateEvent "e" 0 ([] : Store)).1 = false ∧
      (isDuplicateEvent "e" 300002
        (sweepDedup 300001 (isDuplicateEvent "e" 0 ([] : Store)).2)).1 = false) ∧
    ∃ k : ℤ, 0 < k ∧ (0 : ℚ) + EVENT_CACHE_TTL < 60000 * (k : ℚ) ∧
      60000 * (k : ℚ) ≤ 360001 := by
  constructor
  · exact c3_redelivery_independent_after_sweep.1 [] "e" 0 300001 300002
      rfl (by norm_num [EVENT_CACHE_TTL])
  · exact c3_redelivery_independent_after_sweep.2 0 360001 (by norm_num)
      (by norm_num [EVENT_CACHE_TTL])

/-- C4: a second delivery of the same derived key within the retention
window yields zero notifications.  The first `isDuplicateEvent` check
records the key and reports it fresh; across any interleaving of sweep
ticks (at times up to the second delivery) and other deliveries, the
entry survives because no sweep can see it as older than
`EVENT_CACHE_TTL`; the second check therefore reports a duplicate and
the handler (here the `Users` INSERT handler of the sources) returns
without emitting anything. -/
theorem c4_duplicate_within_window_suppressed
    (m0 : Store) (e : String) (t1 t2 : ℚ) (ops : List DedupOp) (p : Payload)
    (h0 : storeHas m0 e = false)
    (hwin : t2 - t1 ≤ EVENT_CACHE_TTL)
    (hops : ∀ s, DedupOp.sweep s ∈ ops → s ≤ t2) :
    (isDuplicateEvent e t1 m0).1 = false ∧
    (isDuplicateEvent e t2
      (runDedupOps (isDuplicateEvent e t1 m0).2 ops)).1 = true ∧
    handleUsersInsert e t2 p (runDedupOps (isDuplicateEvent e t1 m0).2 ops)
      = (runDedupOps (isDuplicateEvent e t1 m0).2 ops, []) := by
  have hset : (isDuplicateEvent e t1 m0).2 = storeSet m0 e t1 := by
    simp [isDuplicateEvent, h0]
  have hmem : (e, t1) ∈ (isDuplicateEvent e t1 m0).2 := by
    rw [hset, storeSet_append_of_not_has t1 h0]
    exact List.mem_append_right _ (List.mem_singleton.2 rfl)
  have hmem2 : (e, t1) ∈ runDedupOps (isDuplicateEvent e t1 m0).2 ops :=
    mem_runDedupOps ops _ hmem
      (fun s hs => by have := hops s hs; linarith)
  have hhas := storeHas_of_mem hmem2
  refine ⟨by simp [isDuplicateEvent, h0], ?_, ?_⟩
  · rw [isDuplicateEvent_fst]
    exact hhas
  · simp only [handleUsersInsert, isDuplicateEvent_fst, hhas, if_true,
      isDuplicateEvent_snd_of_has t2 hhas]

/-- Witness for C4: key `"x"` delivered at `0` and again at `300000`,
with one sweep tick and one unrelated delivery in between. -/
theorem c4_duplicate_within_window_witness :
    (isDuplicateEvent "x" 0 ([] : Store)).1 = false ∧
    (isDuplicateEvent "x" 300000
      (runDedupOps (isDuplicateEvent "x" 0 ([] : Store)).2
        [DedupOp.sweep 60000, DedupOp.deliver "y" 100])).1 = true ∧
    handleUsersInsert "x" 300000 ⟨[("id", Value.vNum 9)], none⟩
      (runDedupOps (isDuplicateEvent "x" 0 ([] : Store)).2
        [DedupOp.sweep 60000, DedupOp.deliver "y" 100])
      = (runDedupOps (isDuplicateEvent "x" 0 ([] : Store)).2
          [DedupOp.sweep 60000, DedupOp.deliver "y" 100], []) := by
  refine c4_duplicate_within_window_suppressed [] "x" 0 300000
    [DedupOp.sweep 60000, DedupOp.deliver "y" 100]
    ⟨[("id", Value.vNum 9)], none⟩ rfl (by norm_num [EVENT_CACHE_TTL]) ?_
  intro s hs
  rcases List.mem_cons.1 hs with h1 | h2
  · cases h1
    norm_num
  · rcases List.mem_cons.1 h2 with h3 | h4
    · cases h3
    · cases h4

/-- C5: for a single update whose old metric value is below the lowest
threshold of the (ascending) ladder and whose new value is at or above
every rung — in particular the highest — with the recorded high-water
mark (default 0) below the lowest threshold, `checkAndNotifyMilestone`
returns exactly the lowest threshold (one notification) and records it. -/
theorem c5_single_jump_notifies_lowest (u : Value) (ty : String)
    (o n m0 : ℚ) (rest : List ℚ) (cache : Store)
    (hold : o < m0)
    (hnew : ∀ m ∈ m0 :: rest, m ≤ n)
    (hhwm : (storeFind cache (milestoneKey u ty)).getD 0 < m0) :
    checkAndNotifyMilestone u ty (JSNum.num o) (JSNum.num n) (m0 :: rest)
        cache
      = (storeSet cache (milestoneKey u ty) m0, some m0) := by
  simp only [checkAndNotifyMilestone]
  rw [checkMilestones_cons_pos rest hold
    (hnew m0 (List.mem_cons_self _ _)) hhwm]

/-- Witness for C5: volume jumping from 900 (below 1000) to 200000
(above 100000) with an empty milestone cache notifies exactly the 1000
threshold. -/
theorem c5_single_jump_notifies_lowest_witness :
    checkAndNotifyMilestone (Value.vNum 3) "volume" (JSNum.num 900)
        (JSNum.num 200000) volumeMilestones []
      = ([("3:volume", 1000)], some 1000) := by
  have h := c5_single_jump_notifies_lowest (Value.vNum 3) "volume" 900 200000
    1000 [5000, 10000, 25000, 50000, 100000] [] (by norm_num)
    (by
      intro m hm
      fin_cases hm <;> norm_num)
    (by
      have hk : storeFind ([] : Store)
          (milestoneKey (Value.vNum 3) "volume") = none := rfl
      rw [hk]
      norm_num)
  rw [show milestoneKey (Value.vNum 3) "volume" = "3:volume" from by decide]
    at h
  exact h

/-- C6 counterexample: the claim says an immediately repeated identical
update returns none.  With the real volume ladder, an update from 0 to
10000 first returns threshold 1000 (recording it); the identical repeat
returns 5000 — a higher, not-yet-notified threshold — not none. -/
theorem c6_repeat_update_counterexample :
    checkAndNotifyMilestone (Value.vNum 1) "volume" (JSNum.num 0)
        (JSNum.num 10000) volumeMilestones []
      = ([("1:volume", 1000)], some 1000) ∧
    checkAndNotifyMilestone (Value.vNum 1) "volume" (JSNum.num 0)
        (JSNum.num 10000) volumeMilestones [("1:volume", 1000)]
      = ([("1:volume", 5000)], some 5000) := by
  constructor
  · with_unfolding_all decide
  · have hk : milestoneKey (Value.vNum 1) "volume" = "1:volume" := by decide
    norm_num [checkAndNotifyMilestone, hk, storeFind, storeSet,
      checkMilestones, volumeMilestones, JSNum.ltb, JSNum.geb, JSNum.leb]

/-- C6 amended: when `checkAndNotifyMilestone` returns a crossed
threshold `t`, it has already recorded `t` as the new high-water mark for
that (subject, metric) pair, `t` is strictly greater than the previously
recorded mark (so the mark never decreases; a `none` result leaves the
cache unchanged), and an immediately repeated identical update can never
return `t` again — any threshold it returns is strictly greater. -/
theorem c6_hwm_recorded_and_monotone :
    (∀ (u : Value) (ty : String) (o n : JSNum) (ms : List ℚ)
        (cache c' : Store),
      checkAndNotifyMilestone u ty o n ms cache = (c', none) → c' = cache) ∧
    (∀ (u : Value) (ty : String) (o n : JSNum) (ms : List ℚ)
        (cache c' : Store) (t : ℚ),
      checkAndNotifyMilestone u ty o n ms cache = (c', some t) →
      storeFind c' (milestoneKey u ty) = some t ∧
      (storeFind cache (milestoneKey u ty)).getD 0 < t ∧
      ∀ (c'' : Store) (t' : ℚ),
        checkAndNotifyMilestone u ty o n ms c' = (c'', some t') → t < t') := by
  constructor
  · intro u ty o n ms cache c' h
    exact checkAndNotifyMilestone_eq_none h
  · intro u ty o n ms cache c' t h
    obtain ⟨hcm, hc'⟩ := checkAndNotifyMilestone_eq_some h
    have hfind : storeFind c' (milestoneKey u ty) = some t := by
      rw [hc']
      exact storeFind_storeSet_self cache (milestoneKey u ty) t
    refine ⟨hfind, checkMilestones_some_gt hcm, ?_⟩
    intro c'' t' h'
    obtain ⟨hcm', _⟩ := checkAndNotifyMilestone_eq_some h'
    rw [hfind] at hcm'
    exact checkMilestones_some_gt hcm'

/-- Witness for C6 amended, at the 0 → 10000 volume update on an empty
cache (result `(c', some 1000)`): the mark 1000 is recorded, exceeds the
default 0, and the repeated identical update returns only strictly
higher thresholds. -/
theorem c6_hwm_recorded_and_monotone_witness :
    storeFind [("1:volume", 1000)] "1:volume" = some 1000 ∧
    (storeFind ([] : Store) "1:volume").getD 0 < 1000 ∧
    ∀ (c'' : Store) (t' : ℚ),
      checkAndNotifyMilestone (Value.vNum 1) "volume" (JSNum.num 0)
          (JSNum.num 10000) volumeMilestones [("1:volume", 1000)]
        = (c'', some t') → 1000 < t' := by
  have h := c6_hwm_recorded_and_monotone.2 (Value.vNum 1) "volume"
    (JSNum.num 0) (JSNum.num 10000) volumeMilestones [] [("1:volume", 1000)]
    1000 (by with_unfolding_all decide)
  rw [show milestoneKey (Value.vNum 1) "volume" = "1:volume" from by decide]
    at h
  exact h

/-- C7: for a `Users` UPDATE with genuine prior state whose old and new
`amount_deposited` are numeric, a deposit notification is emitted iff
`new > old`, `old ≥ 0` and the delta strictly exceeds `0.01`; when
emitted, it carries exactly the delta and the new total (so a delta of
exactly `0.01` is silent and `0.02` is notified with amount `0.02`). -/
theorem c7_deposit_gate (p : Payload) (mc : Store) (a b : ℚ)
    (hold : Row.keyCount (p.old.getD []) > 1)
    (hnew : Row.get p.new "amount_deposited" = Value.vNum a)
    (hprev : Row.get (p.old.getD []) "amount_deposited" = Value.vNum b) :
    ((classifyUsersUpdate p mc).2).filter Notif.isDeposit
      = if a > b ∧ b ≥ 0 ∧ a - b > 1 / 100
        then [Notif.deposit (Row.get p.new "id") (JSNum.num (a - b))
          (JSNum.num a)]
        else [] := by
  rw [classifyUsersUpdate_filter_isDeposit p mc hold]
  simp only [usersDepositNotifs, numField_vNum hnew, numField_vNum hprev,
    JSNum.gtb, JSNum.ltb, JSNum.geb, JSNum.leb, JSNum.sub]
  by_cases h1 : b < a <;> by_cases h2 : (0 : ℚ) ≤ b <;>
    by_cases h3 : (1 : ℚ) / 100 < a - b <;>
    simp [h1, h2, h3]

/-- Witness for C7: deposit rising from 0.5 to 0.52 (delta 0.02 > 0.01)
emits exactly one deposit notification carrying amount 0.02 and total
0.52; the accompanying conjunct shows a delta of exactly 0.01
(0.5 to 0.51) emits none. -/
theorem c7_deposit_gate_witness :
    ((classifyUsersUpdate ⟨[("id", Value.vNum 1),
          ("amount_deposited", Value.vNum (52 / 100))],
        some [("id", Value.vNum 1),
          ("amount_deposited", Value.vNum (1 / 2))]⟩ []).2).filter
        Notif.isDeposit
      = [Notif.deposit (Value.vNum 1) (JSNum.num (1 / 50))
          (JSNum.num (13 / 25))] ∧
    ((classifyUsersUpdate ⟨[("id", Value.vNum 1),
          ("amount_deposited", Value.vNum (51 / 100))],
        some [("id", Value.vNum 1),
          ("amount_deposited", Value.vNum (1 / 2))]⟩ []).2).filter
        Notif.isDeposit = [] := by
  constructor
  · have h := c7_deposit_gate ⟨[("id", Value.vNum 1),
        ("amount_deposited", Value.vNum (52 / 100))],
      some [("id", Value.vNum 1),
        ("amount_deposited", Value.vNum (1 / 2))]⟩ [] (52 / 100) (1 / 2)
      (by decide) (by with_unfolding_all decide) (by with_unfolding_all decide)
    rw [h, if_pos (by norm_num)]
    rw [show Row.get [("id", Value.vNum 1),
        ("amount_deposited", Value.vNum (52 / 100))] "id" = Value.vNum 1
      from by decide]
    norm_num
  · have h := c7_deposit_gate ⟨[("id", Value.vNum 1),
        ("amount_deposited", Value.vNum (51 / 100))],
      some [("id", Value.vNum 1),
        ("amount_deposited", Value.vNum (1 / 2))]⟩ [] (51 / 100) (1 / 2)
      (by decide) (by with_unfolding_all decide) (by with_unfolding_all decide)
    rw [h, if_neg (by norm_num)]

/-- C9 counterexample: the claim says invalid numeric field values coerce
to zero before the gates run.  A non-numeric, non-empty string such as
`"pending"` is truthy, so `Number(x || 0)` yields `NaN`, not `0`; with
old `amount_deposited = "pending"` and new `= 5` every gate comparison is
false and the UPDATE emits nothing, whereas coercion to zero would have
emitted a deposit notification of `+5`. -/
theorem c9_invalid_string_coerces_to_nan_counterexample :
    numField [("id", Value.vNum 1), ("amount_deposited", Value.vStr "pending")]
        "amount_deposited" = JSNum.nan ∧
    JSNum.nan ≠ JSNum.num 0 ∧
    (classifyUsersUpdate ⟨[("id", Value.vNum 1),
        ("amount_deposited", Value.vNum 5)],
      some [("id", Value.vNum 1),
        ("amount_deposited", Value.vStr "pending")]⟩ []).2 = [] := by
  refine ⟨?_, by decide, ?_⟩
  · with_unfolding_all decide
  · with_unfolding_all decide

/-- C9 amended: classification is a total function (it cannot raise);
missing, `null`, empty-string, `false` or zero field values coerce to
zero before the gates run, while non-numeric strings coerce to `NaN`.
Every JS numeric comparison with `NaN` evaluates false (all eight
`<`/`≤`/`>`/`≥` orientations), and consequently each of the five
per-field gates of the `Users` UPDATE handler — deposit
(`amount_deposited`), PnL swing (`total_pnl`), volume milestone
(`total_volume`), transaction milestone (`txns_executed`) and fee spike
(`fees_total`) — suppresses its signal when that field coerces to `NaN`
on either the old or the new side (milestone checks also leave the cache
unchanged); at the classifier level the deposit filter is empty whenever
the old amount is `NaN`.  So the worst outcome is a suppressed or
malformed notification, never a crash. -/
theorem c9_numeric_coercion_safety :
    (∀ (r : Row) (k : String),
      Row.get r k = Value.vUndef ∨ Row.get r k = Value.vNull ∨
        Row.get r k = Value.vStr "" ∨ Row.get r k = Value.vBool false ∨
        Row.get r k = Value.vNum 0 →
      numField r k = JSNum.num 0) ∧
    (∀ x : JSNum,
      JSNum.ltb JSNum.nan x = false ∧ JSNum.ltb x JSNum.nan = false ∧
      JSNum.leb JSNum.nan x = false ∧ JSNum.leb x JSNum.nan = false ∧
      JSNum.gtb JSNum.nan x = false ∧ JSNum.gtb x JSNum.nan = false ∧
      JSNum.geb JSNum.nan x = false ∧ JSNum.geb x JSNum.nan = false) ∧
    (∀ (id : Value) (rn ro : Row),
      numField rn "amount_deposited" = JSNum.nan ∨
        numField ro "amount_deposited" = JSNum.nan →
      usersDepositNotifs id rn ro = []) ∧
    (∀ rn ro : Row,
      numField rn "total_pnl" = JSNum.nan ∨
        numField ro "total_pnl" = JSNum.nan →
      usersPnlNotifs rn ro = []) ∧
    (∀ (id : Value) (rn ro : Row) (mc : Store),
      numField rn "total_volume" = JSNum.nan ∨
        numField ro "total_volume" = JSNum.nan →
      usersVolumeCheck id rn ro mc = (mc, [])) ∧
    (∀ (id : Value) (rn ro : Row) (mc : Store),
      numField rn "txns_executed" = JSNum.nan ∨
        numField ro "txns_executed" = JSNum.nan →
      usersTxnCheck id rn ro mc = (mc, [])) ∧
    (∀ rn ro : Row,
      numField rn "fees_total" = JSNum.nan ∨
        numField ro "fees_total" = JSNum.nan →
      usersFeeNotifs rn ro = []) ∧
    (∀ (p : Payload) (mc : Store),
      numField (p.old.getD []) "amount_deposited" = JSNum.nan →
      ((classifyUsersUpdate p mc).2).filter Notif.isDeposit = []) := by
  refine ⟨?_, ?_, usersDepositNotifs_nan, usersPnlNotifs_nan,
    usersVolumeCheck_nan, usersTxnCheck_nan, usersFeeNotifs_nan, ?_⟩
  · intro r k h
    rcases h with h | h | h | h | h <;>
      simp [numField, h, jsOr, Value.truthy, toNumber]
  · intro x
    exact ⟨JSNum.ltb_nan_left x, JSNum.ltb_nan_right x,
      JSNum.leb_nan_left x, JSNum.leb_nan_right x,
      JSNum.ltb_nan_right x, JSNum.ltb_nan_left x,
      JSNum.leb_nan_right x, JSNum.leb_nan_left x⟩
  · intro p mc hnan
    by_cases hold : Row.keyCount (p.old.getD []) > 1
    · rw [classifyUsersUpdate_filter_isDeposit p mc hold]
      exact usersDepositNotifs_nan _ _ _ (Or.inr hnan)
    · simp only [classifyUsersUpdate]
      rw [if_pos (by simp [hold])]
      rfl

/-- Witness for C9 amended: a missing field coerces to zero; a
non-numeric string (`"oops"`) on the new side silences the deposit gate,
on either side silences the PnL, milestone and fee gates (leaving the
milestone cache untouched); and with the `"pending"` old amount the
classifier-level deposit filter is empty. -/
theorem c9_numeric_coercion_safety_witness :
    numField [("id", Value.vNum 4)] "amount_deposited" = JSNum.num 0 ∧
    usersDepositNotifs (Value.vNum 1)
      [("amount_deposited", Value.vStr "oops")]
      [("amount_deposited", Value.vNum 2)] = [] ∧
    usersPnlNotifs [("total_pnl", Value.vStr "oops")]
      [("total_pnl", Value.vNum 0)] = [] ∧
    usersVolumeCheck (Value.vNum 1) [("total_volume", Value.vNum 5000)]
      [("total_volume", Value.vStr "oops")] [] = ([], []) ∧
    usersTxnCheck (Value.vNum 1) [("txns_executed", Value.vStr "oops")]
      [("txns_executed", Value.vNum 1)] [] = ([], []) ∧
    usersFeeNotifs [("fees_total", Value.vNum 60)]
      [("fees_total", Value.vStr "oops")] = [] ∧
    ((classifyUsersUpdate ⟨[("id", Value.vNum 1),
        ("amount_deposited", Value.vNum 5)],
      some [("id", Value.vNum 1),
        ("amount_deposited", Value.vStr "pending")]⟩ []).2).filter
      Notif.isDeposit = [] := by
  refine ⟨?_, ?_, ?_, ?_, ?_, ?_, ?_⟩
  · exact c9_numeric_coercion_safety.1 [("id", Value.vNum 4)]
      "amount_deposited" (Or.inl (by decide))
  · exact c9_numeric_coercion_safety.2.2.1 (Value.vNum 1)
      [("amount_deposited", Value.vStr "oops")]
      [("amount_deposited", Value.vNum 2)]
      (Or.inl (by with_unfolding_all decide))
  · exact c9_numeric_coercion_safety.2.2.2.1
      [("total_pnl", Value.vStr "oops")] [("total_pnl", Value.vNum 0)]
      (Or.inl (by with_unfolding_all decide))
  · exact c9_numeric_coercion_safety.2.2.2.2.1 (Value.vNum 1)
      [("total_volume", Value.vNum 5000)]
      [("total_volume", Value.vStr "oops")] []
      (Or.inr (by with_unfolding_all decide))
  · exact c9_numeric_coercion_safety.2.2.2.2.2.1 (Value.vNum 1)
      [("txns_executed", Value.vStr "oops")]
      [("txns_executed", Value.vNum 1)] []
      (Or.inl (by with_unfolding_all decide))
  · exact c9_numeric_coercion_safety.2.2.2.2.2.2.1
      [("fees_total", Value.vNum 60)] [("fees_total", Value.vStr "oops")]
      (Or.inr (by with_unfolding_all decide))
  · exact c9_numeric_coercion_safety.2.2.2.2.2.2.2 ⟨[("id", Value.vNum 1),
        ("amount_deposited", Value.vNum 5)],
      some [("id", Value.vNum 1),
        ("amount_deposited", Value.vStr "pending")]⟩ []
      (by with_unfolding_all decide)

/-- C10 counterexample: not every user-controlled string interpolated
into a chat message passes through `escapeHtml` — the queue-sourced
`amount` field is interpolated via `fmt`, which returns strings
unchanged, so the raw `<u>` appears verbatim in the order message
(`Amount: <b>$<u></b>`) where escaping would have produced
`&lt;u&gt;`. -/
theorem c10_unescaped_fmt_counterexample :
    processSQSOrderMsg ⟨Value.vStr "u1", Value.vStr "alice", Value.vStr "o1",
        Value.vUndef, Value.vStr "YES", Value.vUndef, Value.vStr "Q?",
        Value.vStr "<u>", Value.vNum 3, Value.vNum 1, Value.vStr "0xh",
        Value.vStr "t", Value.vStr "matched", Value.vStr "YES"⟩
      = "✅ <b>Order matched</b> 🟢\nUser: @alice (<code>u1</code>)\nMarket: <b>Q?</b>\nSide: <b>YES</b> | Outcome: <b>YES</b>\nAmount: <b>$<u></b> | Shares: <b>3</b>\nPrice: <b>1</b>\nOrder ID: <code>o1</code>\nTX Hash: <code>0xh</code>\nTime: <code>t</code>"
    ∧ escapeHtml (Value.vStr "<u>") = "&lt;u&gt;" := by
  constructor
  · with_unfolding_all decide
  · decide

/-- C10 amended: `escapeHtml` itself is sound — for every input value its
output contains no raw `<` or `>` (ampersands are encoded first, as the
sample shows), and `null`/`undefined` map to the empty string — but not
every user-controlled interpolation site routes through it. -/
theorem c10_escape_html_sound :
    (∀ v : Value, '<' ∉ (escapeHtml v).data ∧ '>' ∉ (escapeHtml v).data) ∧
    escapeHtml Value.vNull = "" ∧
    escapeHtml Value.vUndef = "" ∧
    escapeHtml (Value.vStr "a&<>b") = "a&amp;&lt;&gt;b" := by
  refine ⟨?_, rfl, rfl, by decide⟩
  intro v
  cases v with
  | vNull => simp [escapeHtml]
  | vUndef => simp [escapeHtml]
  | vBool b =>
      exact ⟨no_lt_after_escape _, no_gt_after_escape _⟩
  | vNum q =>
      exact ⟨no_lt_after_escape _, no_gt_after_escape _⟩
  | vStr s =>
      exact ⟨no_lt_after_escape _, no_gt_after_escape _⟩

end NotifBot
